import Mathlib

/-!
# Verification of `src/apps/www/astro.config.mjs`

A shallow embedding of the Astro site-configuration module of the
TEDxUniversitas-Brawijaya/tedx-2026 repository.  The module under study is:

It imports `cloudflare` from "@astrojs/cloudflare", `sitemap` from
"@astrojs/sitemap" and `defineConfig` from "astro/config", and its only
statement is the default export:

```
  export default defineConfig({
    site: "https://tedxuniversitasbrawijaya.com",
    adapter: cloudflare(),
    integrations: [sitemap()],
  });
```

We embed module evaluation as a computation in a state-and-error monad.
The state records the ordered trace of calls made to imported (external)
functions and the table of global mutable bindings; the error component
models the ways a JavaScript module evaluation can throw (calling a
non-function, referencing an unbound identifier).  External factory
functions (`cloudflare`, `sitemap`) return opaque values, represented
symbolically as a record of the call that produced them.
-/

namespace TedxConfig

/-- JavaScript runtime values arising during evaluation of the
configuration module.  Results of external factory calls are opaque to
the module, so they are represented symbolically by the name of the
called function together with the argument list of the call
(`externResult`).  Imported function bindings are values too:
`externFn` for the opaque factories from `@astrojs/cloudflare` and
`@astrojs/sitemap`, and `defineConfigFn` for the `defineConfig` helper
imported from `astro/config`. -/
inductive JSValue where
  | str : String → JSValue
  | obj : List (String × JSValue) → JSValue
  | arr : List JSValue → JSValue
  | externResult : String → List JSValue → JSValue
  | externFn : String → JSValue
  | defineConfigFn : JSValue


/-- The ways evaluation of a module can throw. -/
inductive EvalError where
  | notAFunction : JSValue → EvalError
  | unboundIdentifier : String → EvalError


/-- One entry of the external-call trace: the name of the imported
function that was called and the arguments it was called with. -/
structure ExternCall where
  callee : String
  args : List JSValue


/-- Mutable evaluation state: the ordered trace of calls to imported
functions performed so far, and the table of global mutable bindings. -/
structure EvalState where
  trace : List ExternCall
  globals : List (String × JSValue)


/-- The context a module evaluation runs in: the process environment
variables it could read, the content of the repository's documentation
file `src/apps/www/docs/visual-css.md` it could read, and the global
bindings present before the module runs.  The configuration module
consults none of the first two; making them explicit lets us state that
as a theorem. -/
structure ModuleContext where
  processEnv : String → Option String
  docsContent : String
  initialGlobals : List (String × JSValue)

/-- The monad of module evaluation: state threading over fallible
computation. -/
abbrev EvalM (α : Type) := StateT EvalState (Except EvalError) α

/-- The exports of an evaluated module: the default export and the list
of named exports. -/
structure ModuleExports where
  defaultExport : JSValue
  namedExports : List (String × JSValue)


/-- The import bindings of `astro.config.mjs`, one per import line of
the source file: `cloudflare` from `@astrojs/cloudflare`, `sitemap`
from `@astrojs/sitemap`, and `defineConfig` from `astro/config`. -/
def importEnv : String → Option JSValue
  | "cloudflare" => some (JSValue.externFn "cloudflare")
  | "sitemap" => some (JSValue.externFn "sitemap")
  | "defineConfig" => some JSValue.defineConfigFn
  | _ => none

/-- Look up an imported binding; referencing an identifier the module
did not import throws. -/
def lookupBinding (name : String) : EvalM JSValue :=
  match importEnv name with
  | some v => pure v
  | none => throw (EvalError.unboundIdentifier name)

/-- Call a value.  Calling an opaque imported factory records the call
in the trace and yields the opaque symbolic result of that call.
Calling `defineConfig` records the call and returns its first argument
unchanged.  Calling anything that is not a function throws.

The behaviour of `defineConfig` is external to the repository.
Modelled from the spec: the spec describes the default export as "a
static declaration object consumed entirely by an external framework's
build pipeline", i.e. `defineConfig` passes the declaration object
through unchanged. -/
def jsCall (callee : JSValue) (args : List JSValue) : EvalM JSValue :=
  match callee with
  | JSValue.externFn name => do
      modify (fun st => { st with trace := st.trace ++ [⟨name, args⟩] })
      pure (JSValue.externResult name args)
  | JSValue.defineConfigFn => do
      modify (fun st => { st with trace := st.trace ++ [⟨"defineConfig", args⟩] })
      match args with
      | a :: _ => pure a
      | [] => pure (JSValue.obj [])
  | v => throw (EvalError.notAFunction v)

/-- Write a global mutable binding.  This primitive is part of the
evaluation model (JavaScript modules can assign to globals); the
configuration module never uses it. -/
def setGlobal (name : String) (v : JSValue) : EvalM Unit :=
  modify (fun st => { st with globals := (name, v) :: st.globals })

/-- The body of `astro.config.mjs`, step by step in JavaScript
evaluation order: the properties of the object literal are evaluated
top to bottom (the `site` string literal, then the call `cloudflare()`,
then the array literal `[sitemap()]`), the object is formed, and
`defineConfig` is applied to it; the result is the default export.
There are no other top-level statements and no named exports. -/
def moduleBody : EvalM ModuleExports := do
  let siteVal : JSValue := JSValue.str "https://tedxuniversitasbrawijaya.com"
  let cfFn ← lookupBinding "cloudflare"
  let adapterVal ← jsCall cfFn []
  let smFn ← lookupBinding "sitemap"
  let smVal ← jsCall smFn []
  let integrationsVal : JSValue := JSValue.arr [smVal]
  let configLiteral : JSValue :=
    JSValue.obj
      [("site", siteVal), ("adapter", adapterVal), ("integrations", integrationsVal)]
  let dcFn ← lookupBinding "defineConfig"
  let exported ← jsCall dcFn [configLiteral]
  pure { defaultExport := exported, namedExports := [] }

/-- Evaluate the configuration module in a given context: run the body
from an empty call trace over the context's initial globals.  The
context's process environment and documentation-file content are
available to the evaluation but, as the theorems below establish, never
consulted. -/
def evalConfigModule (ctx : ModuleContext) :
    Except EvalError (ModuleExports × EvalState) :=
  moduleBody.run { trace := [], globals := ctx.initialGlobals }

/-- Property lookup on a JavaScript value: defined on object values,
absent otherwise. -/
def JSValue.field : JSValue → String → Option JSValue
  | JSValue.obj kvs, k => (kvs.find? (fun kv => kv.1 == k)).map (·.2)
  | _, _ => none

/-- The list of property keys of a JavaScript object value. -/
def JSValue.keys : JSValue → Option (List String)
  | JSValue.obj kvs => some (kvs.map (·.1))
  | _ => none

/-- The number of calls to the imported function `name` in a trace. -/
def countCalls (tr : List ExternCall) (name : String) : Nat :=
  (tr.filter (fun c => c.callee == name)).length

/-- A fixed closed context used to instantiate universally quantified
theorems on a concrete input. -/
def sampleContext : ModuleContext :=
  { processEnv := fun _ => none
    docsContent := ""
    initialGlobals := [] }

/-- The configuration object the module builds: the literal with the
three declared options. -/
def builtConfigObject : JSValue :=
  JSValue.obj
    [("site", JSValue.str "https://tedxuniversitasbrawijaya.com"),
     ("adapter", JSValue.externResult "cloudflare" []),
     ("integrations", JSValue.arr [JSValue.externResult "sitemap" []])]

/-- The exports produced by evaluating the module. -/
def builtExports : ModuleExports :=
  { defaultExport := builtConfigObject, namedExports := [] }

/-- The external-call trace of one module evaluation. -/
def builtTrace : List ExternCall :=
  [⟨"cloudflare", []⟩, ⟨"sitemap", []⟩, ⟨"defineConfig", [builtConfigObject]⟩]

/-- Evaluating the module in any context succeeds and yields the built
exports, the built trace, and untouched globals. -/
theorem evalConfigModule_eq (ctx : ModuleContext) :
    evalConfigModule ctx =
      Except.ok (builtExports, ⟨builtTrace, ctx.initialGlobals⟩) := rfl

/-- C1: the default-exported site configuration declares a site origin
URL: in every evaluation context the module evaluates successfully and
the `site` field of its default export is exactly the string
"https://tedxuniversitasbrawijaya.com". -/
theorem defaultExport_site_is_origin_url (ctx : ModuleContext) :
    ∃ ex st, evalConfigModule ctx = Except.ok (ex, st) ∧
      ex.defaultExport.field "site" =
        some (JSValue.str "https://tedxuniversitasbrawijaya.com") :=
  ⟨builtExports, ⟨builtTrace, ctx.initialGlobals⟩, evalConfigModule_eq ctx, rfl⟩

/-- C2: the default-exported site configuration declares a deployment
adapter: the `adapter` field of its default export is exactly the value
produced by calling the imported `cloudflare` constructor with no
arguments, and that call appears in the evaluation's trace. -/
theorem defaultExport_adapter_is_cloudflare_call (ctx : ModuleContext) :
    ∃ ex st, evalConfigModule ctx = Except.ok (ex, st) ∧
      ex.defaultExport.field "adapter" =
        some (JSValue.externResult "cloudflare" []) ∧
      ExternCall.mk "cloudflare" [] ∈ st.trace :=
  ⟨builtExports, ⟨builtTrace, ctx.initialGlobals⟩, evalConfigModule_eq ctx,
    rfl, by simp [builtTrace]⟩

/-- C3: the default-exported site configuration declares its build-time
plugins: the `integrations` field of its default export is a list whose
sole element is the value produced by calling `sitemap` with no
arguments; in particular the list has length exactly one. -/
theorem defaultExport_integrations_is_sitemap_singleton (ctx : ModuleContext) :
    ∃ ex st l, evalConfigModule ctx = Except.ok (ex, st) ∧
      ex.defaultExport.field "integrations" = some (JSValue.arr l) ∧
      l = [JSValue.externResult "sitemap" []] ∧ l.length = 1 :=
  ⟨builtExports, ⟨builtTrace, ctx.initialGlobals⟩,
    [JSValue.externResult "sitemap" []], evalConfigModule_eq ctx, rfl, rfl, rfl⟩

/-- C4: evaluating the configuration module is deterministic: for any
two evaluation contexts, whatever their process environments, their
documentation-file contents and their initial global bindings, the
resulting default-exported configuration values are equal. -/
theorem evalConfigModule_deterministic (ctx₁ ctx₂ : ModuleContext) :
    Except.map Prod.fst (evalConfigModule ctx₁) =
      Except.map Prod.fst (evalConfigModule ctx₂) := rfl

/-- C5: noninterference of the documentation content with the
configuration value: the configuration module never reads the
documentation file, so replacing the content of
`src/apps/www/docs/visual-css.md` by any other content leaves the whole
evaluation outcome, default export included, unchanged. -/
theorem evalConfigModule_ignores_docs
    (ctx : ModuleContext) (docs₁ docs₂ : String) :
    evalConfigModule { ctx with docsContent := docs₁ } =
      evalConfigModule { ctx with docsContent := docs₂ } := rfl

/-- C6: evaluation of the configuration module never fails: in every
context it returns a successful result rather than an error, and the
resulting default export is well formed, with a string `site` field, a
defined `adapter` field, and a list-valued `integrations` field. -/
theorem evalConfigModule_never_fails (ctx : ModuleContext) :
    ∃ ex st, evalConfigModule ctx = Except.ok (ex, st) ∧
      (∃ s, ex.defaultExport.field "site" = some (JSValue.str s)) ∧
      (ex.defaultExport.field "adapter").isSome = true ∧
      (∃ l, ex.defaultExport.field "integrations" = some (JSValue.arr l)) :=
  ⟨builtExports, ⟨builtTrace, ctx.initialGlobals⟩, evalConfigModule_eq ctx,
    ⟨"https://tedxuniversitasbrawijaya.com", rfl⟩, rfl,
    ⟨[JSValue.externResult "sitemap" []], rfl⟩⟩

/-- C7: evaluating the configuration module mutates no global state:
whatever global bindings exist before evaluation, they are exactly the
global bindings after evaluation; apart from producing its exports the
module leaves the global table untouched. -/
theorem evalConfigModule_preserves_globals (ctx : ModuleContext) :
    ∃ ex st, evalConfigModule ctx = Except.ok (ex, st) ∧
      st.globals = ctx.initialGlobals :=
  ⟨builtExports, ⟨builtTrace, ctx.initialGlobals⟩, evalConfigModule_eq ctx, rfl⟩

/-- C9: the configuration object sets exactly the three options `site`,
`adapter` and `integrations` and no others: its key list is exactly
those three keys, and in particular no `base` path and no `output` mode
is declared. -/
theorem defaultExport_keys_exactly_three (ctx : ModuleContext) :
    ∃ ex st, evalConfigModule ctx = Except.ok (ex, st) ∧
      ex.defaultExport.keys = some ["site", "adapter", "integrations"] ∧
      ex.defaultExport.field "base" = none ∧
      ex.defaultExport.field "output" = none :=
  ⟨builtExports, ⟨builtTrace, ctx.initialGlobals⟩, evalConfigModule_eq ctx,
    rfl, rfl, rfl⟩

/-- C10: the module's public interface is its default export alone, it
has no named exports, and during one evaluation the factory calls
`cloudflare()` and `sitemap()` are each performed exactly once, as
recorded eagerly in the evaluation's own call trace. -/
theorem defaultExport_only_and_factories_called_once (ctx : ModuleContext) :
    ∃ ex st, evalConfigModule ctx = Except.ok (ex, st) ∧
      ex.namedExports = [] ∧
      countCalls st.trace "cloudflare" = 1 ∧
      countCalls st.trace "sitemap" = 1 :=
  ⟨builtExports, ⟨builtTrace, ctx.initialGlobals⟩, evalConfigModule_eq ctx,
    rfl, rfl, rfl⟩

end TedxConfig
